import Mathlib

/-!
Verification of the action lifecycle and execution-state engine of
`core_execute` (`src/core_execute/actionlib/action.py`, class `BaseAction`).

Modelling conventions (shallow embedding of the Python source):

* Python `str` is modelled as `PyStr := List Char` so that every string
  operation used by the source (`split`, `join`, `lower`, `replace`,
  substring membership, formatting) is a structurally recursive, kernel
  computable Lean function.
* The shared blackboard `self.context : dict[str, Any]` is modelled as an
  association list `List (PyStr × PyStr)`; every value the engine itself
  reads or writes is a string.  `dictFind`/`dictSet` mirror Python dict
  lookup and item assignment (Python's `if not self.context: self.context =
  {key: value}` branch coincides with insertion into the empty list).
* Python exceptions are values of `PyExc`, carrying the data the trapping
  boundary in `BaseAction.execute`/`check` extracts from `sys.exc_info()`:
  the exception type name, the source file basename and line number of the
  raise site, `str(e)`, and the formatted traceback.  The precise
  file/line/traceback text of an exception raised by library code is
  opaque runtime data; exceptions constructed by `action.py` itself are
  given those fields as modelled constants.
* Fallible code returns `Except PyExc`; mutation of `self.context` and the
  externally observable effects (lifecycle-hook handler invocations,
  `update_status` / `update_item` calls to the external tracking
  collaborator, warning logs) are threaded through an explicit state
  `AState` that carries the context together with an event trace.
  Because Python mutates `self.context` in place, a failing computation
  returns the state as of the raise point next to the error
  (`Except PyExc Unit × AState`), never a rolled back state.
* External collaborators (the Jinja2 renderer, the concrete action's
  `_resolve`/`_execute`/`_check` bodies, and the `core_db` functions
  `update_status`/`update_item`) are parameters of an `Env` record:
  arbitrary functions of the appropriate fallible types.
-/

namespace CoreExecute

/-- Python `str`, modelled as its list of characters. -/
abbrev PyStr := List Char

/-- Embed a Lean string literal as a `PyStr`. -/
def pys (s : String) : PyStr := s.data

/-- The apostrophe character (U+0027), used by the source's format strings. -/
def sqc : Char := Char.ofNat 39

/-- The colon character, the PRN segment separator. -/
def colon : Char := Char.ofNat 58

/-- The slash character, the namespace/key separator. -/
def slash : Char := Char.ofNat 47

/-- Python `s.lower()` (the source only lowercases ASCII condition
renderings). -/
def pyLower (s : PyStr) : PyStr := s.map Char.toLower

/-- Python `sub in s` (substring membership), by scanning every suffix. -/
def pyContains (s sub : PyStr) : Bool :=
  match s with
  | [] => decide (sub = [])
  | _ :: rest => sub.isPrefixOf s || pyContains rest sub

/-- Python `s.split(sep)` for a one-character separator (the source splits
PRNs on `":"`). -/
def pySplitChar (s : PyStr) (sep : Char) : List PyStr := List.splitOn sep s

/-- Python `sep.join(parts)` for a one-character separator. -/
def pyJoinChar (sep : Char) (parts : List PyStr) : PyStr :=
  List.intercalate [sep] parts

/-- Python `s.split(sep, 1)` for a one-character separator: split at the
first occurrence only.  Helper returning the pieces around the first
occurrence, if any. -/
def splitFirst (s : PyStr) (sep : Char) : Option (PyStr × PyStr) :=
  match s with
  | [] => Option.none
  | c :: rest =>
      if c = sep then some ([], rest)
      else
        match splitFirst rest sep with
        | some (a, b) => some (c :: a, b)
        | Option.none => Option.none

/-- Python `s.split(sep, 1)`: a list of one or two pieces. -/
def pySplitOnce (s : PyStr) (sep : Char) : List PyStr :=
  match splitFirst s sep with
  | some (a, b) => [a, b]
  | Option.none => [s]

/-- Python `s.replace(pat, rep)` (all non-overlapping occurrences, scanning
left to right).  Structural recursion on a character fuel, which is
initialised to `s.length`; each step consumes at least one character of
`s`, so the fuel never runs out before `s` does. -/
def pyReplaceAux (pat rep : PyStr) : Nat → PyStr → PyStr
  | 0, s => s
  | _ + 1, [] => []
  | fuel + 1, s@(c :: rest) =>
      if pat ≠ [] ∧ pat.isPrefixOf s then
        rep ++ pyReplaceAux pat rep fuel (s.drop pat.length)
      else
        c :: pyReplaceAux pat rep fuel rest

/-- Python `s.replace(pat, rep)`. -/
def pyReplace (s pat rep : PyStr) : PyStr := pyReplaceAux pat rep s.length s

/-- Render a Python `int` (used for the trapped exception's line number). -/
def intStr (n : Int) : PyStr := (toString n).data

/- ===== constants from the head of `action.py` ===== -/

def STATUS_CODE : PyStr := pys "StatusCode"
def STATUS_REASON : PyStr := pys "StatusReason"

def LC_TYPE_STATUS : PyStr := pys "status"
def LC_HOOK_PENDING : PyStr := pys "Pending"
def LC_HOOK_FAILED : PyStr := pys "Failed"
def LC_HOOK_RUNNING : PyStr := pys "Running"
def LC_HOOK_COMPLETE : PyStr := pys "Complete"

/-- Modelled from the spec: `RELEASE_IN_PROGRESS` is imported from the
external collaborator `core_framework.status` (not part of this
repository); the spec treats it as an opaque "release in progress" status
marker, so its concrete spelling is an arbitrary fixed string here.  No
claim depends on its value. -/
def RELEASE_IN_PROGRESS : PyStr := pys "RELEASE_IN_PROGRESS"

/-- `class StatusCode(enum.Enum)` of `action.py`. -/
inductive StatusCode where
  | pending
  | running
  | complete
  | failed
deriving DecidableEq

/-- The `.value` of each `StatusCode` member. -/
def StatusCode.value : StatusCode → PyStr
  | .pending => pys "pending"
  | .running => pys "running"
  | .complete => pys "complete"
  | .failed => pys "failed"

/- ===== Python exceptions, as trapped by the execute/check boundary ===== -/

/-- The data `BaseAction.execute`/`check` extract from a trapped exception:
`type(e).__name__`, the basename and line of the raise site (or
`"Unknown"`/`-1` when no traceback frame exists), `str(e)`, and the joined
`traceback.format_exception` text. -/
structure PyExc where
  typeName : PyStr
  fname : PyStr
  lineno : Int
  msg : PyStr
  tb : PyStr
deriving DecidableEq

/-- The `KeyError` raised by `BaseAction.__get_context` when a key is
absent and no default was provided.  Raise-site location and traceback are
modelled constants (see the module comment). -/
def keyNotFoundMsg (name : PyStr) : PyStr :=
  pys "Key " ++ [sqc] ++ name ++ [sqc] ++
    pys " is not in the context and no default was provided"

def keyErrorExc (name : PyStr) : PyExc :=
  { typeName := pys "KeyError"
  , fname := pys "action.py"
  , lineno := 293
  , msg := keyNotFoundMsg name
  , tb := [] }

/-- The `Exception("Unsupported hook type {}")` raised by
`BaseAction.__execute_lifecycle_hook` for a hook whose `Type` is not
`"status"`.  Raise-site location and traceback are modelled constants. -/
def unsupportedHookExc (hookType : PyStr) : PyExc :=
  { typeName := pys "Exception"
  , fname := pys "action.py"
  , lineno := 327
  , msg := pys "Unsupported hook type " ++ hookType
  , tb := [] }

/- ===== the blackboard context (a Python dict) ===== -/

/-- Dict lookup: `context[key]` / `key in context`. -/
def dictFind : List (PyStr × PyStr) → PyStr → Option PyStr
  | [], _ => Option.none
  | (k, v) :: rest, key => if k = key then some v else dictFind rest key

/-- Dict item assignment: `context[key] = value` (overwrites silently;
inserting into the empty list also covers the source's
`if not self.context: self.context = {key: value}` branch). -/
def dictSet : List (PyStr × PyStr) → PyStr → PyStr → List (PyStr × PyStr)
  | [], key, value => [(key, value)]
  | (k, v) :: rest, key, value =>
      if k = key then (key, value) :: rest
      else (k, v) :: dictSet rest key value

theorem dictFind_dictSet_self (c : List (PyStr × PyStr)) (k v : PyStr) :
    dictFind (dictSet c k v) k = some v := by
  induction c with
  | nil => simp [dictSet, dictFind]
  | cons p rest ih =>
      obtain ⟨k1, v1⟩ := p
      by_cases h : k1 = k
      · subst h; simp [dictSet, dictFind]
      · simp [dictSet, dictFind, h, ih]

theorem dictFind_dictSet_ne (c : List (PyStr × PyStr)) (k v k' : PyStr)
    (h : k' ≠ k) : dictFind (dictSet c k v) k' = dictFind c k' := by
  induction c with
  | nil => simp [dictSet, dictFind, fun hh => h hh.symm ∘ Eq.symm, h.symm]
  | cons p rest ih =>
      obtain ⟨k1, v1⟩ := p
      by_cases hk : k1 = k
      · subst hk
        simp [dictSet, dictFind, h.symm]
      · simp only [dictSet, if_neg hk]
        by_cases hk' : k1 = k'
        · simp [dictFind, hk']
        · simp [dictFind, hk', ih]

/- ===== lifecycle hook declarations ===== -/

/-- One `On<Event>` bundle inside a hook's `Parameters` dict.  The hook
dicts are open string-keyed maps in Python; the engine only ever reads the
fixed keys modelled here, and an `Option` field encodes presence/absence
of the corresponding key (`Details` payloads are opaque to the engine and
modelled as strings). -/
structure OnEventParams where
  status : Option PyStr
  message : Option PyStr
  identity : Option PyStr
  details : Option PyStr
deriving DecidableEq

/-- A hook's `Parameters` dict: `On<Event>` bundles keyed by event name,
plus the `Identity`/`Details` keys that `__get_idenity_parameter` /
`__get_details_parameter` read at this level. -/
structure HookParameters where
  onEvent : List (PyStr × OnEventParams)
  identity : Option PyStr
  details : Option PyStr
deriving DecidableEq

/-- One lifecycle hook declaration (an element of
`definition.LifecycleHooks`): its `Type` tag, the `States` event list
(`hook.get("States", [])`), the optional `Parameters` dict, and the
root-level `Identity`/`Details` keys that are consulted when no
`Parameters` key exists. -/
structure Hook where
  typ : PyStr
  states : List PyStr
  parameters : Option HookParameters
  identity : Option PyStr
  details : Option PyStr
deriving DecidableEq

/-- Dict lookup in a `Parameters.On<Event>` table. -/
def onEventFind : List (PyStr × OnEventParams) → PyStr → Option OnEventParams
  | [], _ => Option.none
  | (k, v) :: rest, key => if k = key then some v else onEventFind rest key

/- ===== observable effects ===== -/

/-- Externally observable effects of one action, in order of occurrence:
invocations of the status-hook handler, calls pushed to the external
tracking collaborator (`update_status(prn, status, message, details)` with
`Option.none` for omitted keyword arguments, and
`update_item(prn, released_build_prn=...)`), and `log.warn` emissions. -/
inductive Ev where
  | hookFired : PyStr → Ev
  | callUpdateStatus : PyStr → PyStr → Option PyStr → Option PyStr → Ev
  | callUpdateItem : PyStr → PyStr → Ev
  | warn : PyStr → Ev
deriving DecidableEq

/-- The mutable state threaded through a `BaseAction`: the shared
blackboard context plus the trace of observable effects so far. -/
structure AState where
  context : List (PyStr × PyStr)
  trace : List Ev
deriving DecidableEq

/-- Append one observable event. -/
def emit (st : AState) (e : Ev) : AState :=
  { st with trace := st.trace ++ [e] }

/-- The external collaborators of one `BaseAction`, as opaque functions:
the Jinja2 renderer (`render_string(template, context)`), the concrete
subclass's `_resolve`/`_execute`/`_check` bodies (which may read and write
the shared context and may raise), and the failure behaviour of the
`core_db` calls: `usFail prn status message details` / `uiFail prn rbp`
return `some m` when the corresponding external call raises an exception
rendering as `m`, and `Option.none` when it succeeds. -/
structure Env where
  render : PyStr → List (PyStr × PyStr) → Except PyExc PyStr
  resolveImpl : AState → Except PyExc Unit × AState
  executeImpl : AState → Except PyExc Unit × AState
  checkImpl : AState → Except PyExc Unit × AState
  usFail : PyStr → PyStr → Option PyStr → Option PyStr → Option PyStr
  uiFail : PyStr → PyStr → Option PyStr

/- ===== the action definition and constructor ===== -/

/-- `ActionDefinition` as consumed by `BaseAction.__init__` (the fields the
engine reads; `Params` is opaque to the engine). -/
structure ActionDefinition where
  «Label» : PyStr
  «Type» : PyStr
  «Condition» : PyStr
  «Before» : List PyStr
  «After» : List PyStr
  «DependsOn» : List PyStr
  «Params» : PyStr
  «LifecycleHooks» : List Hook
  «SaveOutputs» : Bool

/-- The per-action fields computed by `BaseAction.__init__`. -/
structure Action where
  label : PyStr
  action_name : PyStr
  output_namespace : Option PyStr
  state_namespace : PyStr
  typ : PyStr
  condition : PyStr
  before : List PyStr
  after : List PyStr
  params : PyStr
  lifecycle_hooks : List Hook

/-- `BaseAction.__init__`: namespace derivation and field extraction.
`label.split("/", 1)[-1]`, `label.split("/", 1)[0]`, `str.replace`, and
`after = definition.After + definition.DependsOn` are translated
one-to-one. -/
def mkAction (definition : ActionDefinition) : Action :=
  let label := definition.Label
  { label := label
  , action_name := (pySplitOnce label slash).getLastD label
  , output_namespace :=
      if definition.SaveOutputs then
        some (pyReplace ((pySplitOnce label slash).headD label)
          (pys ":action") (pys ":output"))
      else Option.none
  , state_namespace := pyReplace label (pys ":action/") (pys ":var/")
  , typ := definition.Type
  , condition := definition.Condition
  , before := definition.Before
  , after := definition.After ++ definition.DependsOn
  , params := definition.Params
  , lifecycle_hooks := definition.LifecycleHooks }

/- ===== blackboard access (`__get_context` / `__set_context`) ===== -/

/-- The `default` parameter of `__get_context`: either the sentinel
`"_!NO!DEFAULT!PROVIDED!_"` (no default provided), Python `None` (used by
`__get_status_reason`), or a string default. -/
inductive GcDefault where
  | sentinel
  | dnone
  | dstr : PyStr → GcDefault

/-- `BaseAction.__get_context(prn, name, default)`: reads
`context["{prn}/{name}"]`; on a missing key it raises `KeyError` when no
default was provided, else returns the default.  The result is
`some value` or `Option.none` for Python `None`.  (The source's
`if self.context and key in self.context` truthiness test agrees with
plain lookup: the empty dict has no keys.) -/
def get_context (ctx : List (PyStr × PyStr)) (prn name : PyStr)
    (default : GcDefault) : Except PyExc (Option PyStr) :=
  match dictFind ctx (prn ++ pys "/" ++ name) with
  | some v => Except.ok (some v)
  | Option.none =>
      match default with
      | GcDefault.sentinel => Except.error (keyErrorExc name)
      | GcDefault.dnone => Except.ok Option.none
      | GcDefault.dstr s => Except.ok (some s)

/-- `BaseAction.__set_context(prn, name, value)`. -/
def set_context (st : AState) (prn name value : PyStr) : AState :=
  { st with context := dictSet st.context (prn ++ pys "/" ++ name) value }

/-- `BaseAction.__get_status_code`: status code with default `"pending"`. -/
def get_status_code (a : Action) (st : AState) : PyStr :=
  match get_context st.context a.label STATUS_CODE
      (GcDefault.dstr StatusCode.pending.value) with
  | Except.ok (some v) => v
  | _ => StatusCode.pending.value

/-- `BaseAction.__get_status_reason`: status reason with default `None`. -/
def get_status_reason (a : Action) (st : AState) : Option PyStr :=
  match get_context st.context a.label STATUS_REASON GcDefault.dnone with
  | Except.ok v => v
  | _ => Option.none

def is_init (a : Action) (st : AState) : Bool :=
  get_status_code a st = StatusCode.pending.value

def is_failed (a : Action) (st : AState) : Bool :=
  get_status_code a st = StatusCode.failed.value

def is_running (a : Action) (st : AState) : Bool :=
  get_status_code a st = StatusCode.running.value

def is_complete (a : Action) (st : AState) : Bool :=
  get_status_code a st = StatusCode.complete.value

theorem get_status_code_eq (a : Action) (st : AState) :
    get_status_code a st =
      (dictFind st.context (a.label ++ pys "/" ++ STATUS_CODE)).getD
        StatusCode.pending.value := by
  unfold get_status_code get_context
  cases dictFind st.context (a.label ++ pys "/" ++ STATUS_CODE) <;> rfl

theorem get_status_reason_eq (a : Action) (st : AState) :
    get_status_reason a st =
      dictFind st.context (a.label ++ pys "/" ++ STATUS_REASON) := by
  unfold get_status_reason get_context
  cases dictFind st.context (a.label ++ pys "/" ++ STATUS_REASON) <;> rfl

/-- The two status keys of one label never collide. -/
theorem statusKeys_ne (label : PyStr) :
    label ++ pys "/" ++ STATUS_REASON ≠ label ++ pys "/" ++ STATUS_CODE := by
  intro h
  rw [List.append_assoc, List.append_assoc] at h
  have h2 := List.append_cancel_left h
  exact absurd h2 (by decide)

/- ===== hook parameter getters ===== -/

/-- `BaseAction.__get_status_parameter(event, hook)`:
`parms = hook.get("Parameters", {})`; `parms["On{event}"]["Status"]` if both
keys are present, else `None`. -/
def get_status_parameter (event : PyStr) (hook : Hook) : Option PyStr :=
  match hook.parameters with
  | some parms =>
      match onEventFind parms.onEvent (pys "On" ++ event) with
      | some action => action.status
      | Option.none => Option.none
  | Option.none => Option.none

/-- `BaseAction.__get_message_parameter(event, hook)`: like the status
parameter, with key `"Message"`. -/
def get_message_parameter (event : PyStr) (hook : Hook) : Option PyStr :=
  match hook.parameters with
  | some parms =>
      match onEventFind parms.onEvent (pys "On" ++ event) with
      | some action => action.message
      | Option.none => Option.none
  | Option.none => Option.none

/-- `BaseAction.__get_idenity_parameter(event, hook)` (source spelling):
`parms = hook.get("Parameters", hook)`; `parms["Identity"]` if present.
Note the `"Identity"` key is read at the top level of `Parameters` (not
inside `On<event>`), and the hook root is consulted only when the hook has
no `Parameters` key at all. -/
def get_idenity_parameter (event : PyStr) (hook : Hook) : Option PyStr :=
  match hook.parameters with
  | some parms => parms.identity
  | Option.none => hook.identity

/-- `BaseAction.__get_details_parameter(event, hook)`: like the identity
parameter, with key `"Details"`. -/
def get_details_parameter (event : PyStr) (hook : Hook) : Option PyStr :=
  match hook.parameters with
  | some parms => parms.details
  | Option.none => hook.details

/- ===== status propagation (`__update_item_status`) ===== -/

/-- The `log.warn("Failed to update status via API - {}", e)` text. -/
def apiWarnMsg (m : PyStr) : PyStr :=
  pys "Failed to update status via API - " ++ m

/-- `BaseAction.__update_item_status(identity, status, message, details)`:
split the identity on `":"`; on exactly 5 segments push a build-level
`update_status` and, for `RELEASE_IN_PROGRESS`, an `update_item` moving the
branch's released-build pointer; on exactly 6 segments push a
component-level `update_status` and, when the status contains `"_FAILED"`,
a second `update_status` against the 5-segment parent build.  Any
exception from the external calls is caught and logged as a warning
(`try/except` around the whole body), so the function always returns
normally and never touches the blackboard context.  (The source's two
successive `if len == 5` / `if len == 6` tests are exclusive, hence the
`else if`.) -/
def update_item_status (env : Env) (st : AState)
    (identity status message : PyStr) (details : Option PyStr) : AState :=
  let prn_sections := pySplitChar identity colon
  if prn_sections.length = 5 then
    let build_prn := pyJoinChar colon (prn_sections.take 5)
    match env.usFail build_prn status (some message) details with
    | some m => emit st (Ev.warn (apiWarnMsg m))
    | Option.none =>
        let st := emit st (Ev.callUpdateStatus build_prn status (some message) details)
        if status = RELEASE_IN_PROGRESS then
          let branch_prn := pyJoinChar colon (prn_sections.take 4)
          match env.uiFail branch_prn build_prn with
          | some m => emit st (Ev.warn (apiWarnMsg m))
          | Option.none => emit st (Ev.callUpdateItem branch_prn build_prn)
        else st
  else if prn_sections.length = 6 then
    let component_prn := pyJoinChar colon (prn_sections.take 6)
    match env.usFail component_prn status (some message) details with
    | some m => emit st (Ev.warn (apiWarnMsg m))
    | Option.none =>
        let st := emit st (Ev.callUpdateStatus component_prn status (some message) details)
        if pyContains status (pys "_FAILED") then
          let build_prn := pyJoinChar colon (prn_sections.take 5)
          match env.usFail build_prn status Option.none Option.none with
          | some m => emit st (Ev.warn (apiWarnMsg m))
          | Option.none =>
              emit st (Ev.callUpdateStatus build_prn status Option.none Option.none)
        else st
  else st

/- ===== the status hook handler (`__execute_status_hook`) ===== -/

/-- Python truthiness of a `str | None` value: `None` and `""` are falsy. -/
def truthy : Option PyStr → Bool
  | Option.none => false
  | some s => decide (s ≠ [])

/-- `if x: x = render_string(x, context)` — render a parameter only when it
is truthy (rendering may raise). -/
def renderIfTruthy (env : Env) (ctx : List (PyStr × PyStr))
    (v : Option PyStr) : Except PyExc (Option PyStr) :=
  if truthy v then
    match env.render (v.getD []) ctx with
    | Except.ok s => Except.ok (some s)
    | Except.error e => Except.error e
  else Except.ok v

def noStatusWarn : PyStr :=
  pys "Internal - status hook was executed, but no status was defined for event"

def noIdentityWarn : PyStr :=
  pys "Internal - status hook was executed, but no identity was defined"

/-- `BaseAction.__execute_status_hook(event, hook, reason)`: resolve
status/message from the `On<event>` bundle and identity/details from the
`Parameters` (or hook root) level, render the truthy ones against the live
context (status, then identity, then message — a raise propagates), warn
and skip when status or identity is missing after rendering, append the
transition reason to the message, and push the update.  The `hookFired`
trace event records that this handler ran for the event. -/
def execute_status_hook (env : Env) (st : AState) (event : PyStr)
    (hook : Hook) (reason : PyStr) : Except PyExc Unit × AState :=
  let st1 := emit st (Ev.hookFired event)
  let status0 := get_status_parameter event hook
  let message0 := get_message_parameter event hook
  let identity0 := get_idenity_parameter event hook
  let details := get_details_parameter event hook
  match renderIfTruthy env st1.context status0 with
  | Except.error e => (Except.error e, st1)
  | Except.ok status1 =>
  match renderIfTruthy env st1.context identity0 with
  | Except.error e => (Except.error e, st1)
  | Except.ok identity1 =>
  match renderIfTruthy env st1.context message0 with
  | Except.error e => (Except.error e, st1)
  | Except.ok message1 =>
  if truthy status1 = false then
    (Except.ok (), emit st1 (Ev.warn noStatusWarn))
  else if truthy identity1 = false then
    (Except.ok (), emit st1 (Ev.warn noIdentityWarn))
  else
    let message2 :=
      if reason ≠ [] then
        some (if truthy message1 then message1.getD [] ++ pys " - " ++ reason
              else reason)
      else message1
    let message3 :=
      if truthy message2 then message2
      else some (if reason ≠ [] then reason else [])
    (Except.ok (),
      update_item_status env st1 (identity1.getD []) (status1.getD [])
        (message3.getD []) details)

/- ===== lifecycle hook dispatch ===== -/

/-- `BaseAction.__execute_lifecycle_hook(event, hook_type, hook, reason)`:
route a `"status"` hook to the status-hook handler; any other type raises
`Exception("Unsupported hook type {}")`. -/
def execute_lifecycle_hook (env : Env) (st : AState) (event : PyStr)
    (hook : Hook) (reason : PyStr) : Except PyExc Unit × AState :=
  if hook.typ = LC_TYPE_STATUS then execute_status_hook env st event hook reason
  else (Except.error (unsupportedHookExc hook.typ), st)

/-- The loop body of `__execute_lifecycle_hooks`: run the selected hooks in
order; a raise aborts the remainder (state as of the raise point). -/
def run_hooks (env : Env) (event reason : PyStr) :
    List Hook → AState → Except PyExc Unit × AState
  | [], st => (Except.ok (), st)
  | h :: rest, st =>
      match execute_lifecycle_hook env st event h reason with
      | (Except.ok _, st1) => run_hooks env event reason rest st1
      | (Except.error e, st1) => (Except.error e, st1)

/-- `BaseAction.__execute_lifecycle_hooks(event, reason)`: select every
hook whose `States` list contains the event, then execute them in order. -/
def execute_lifecycle_hooks (env : Env) (a : Action) (st : AState)
    (event reason : PyStr) : Except PyExc Unit × AState :=
  run_hooks env event reason
    (a.lifecycle_hooks.filter (fun h => h.states.contains event)) st

/- ===== the status state machine setters ===== -/

/-- `BaseAction.set_failed(reason)`: no-op when already failed with the
same reason; otherwise fire the `Failed` hooks (a raise propagates), then
write the new status code and reason. -/
def set_failed (env : Env) (a : Action) (st : AState) (reason : PyStr) :
    Except PyExc Unit × AState :=
  if is_failed a st && (get_status_reason a st = some reason) then
    (Except.ok (), st)
  else
    match execute_lifecycle_hooks env a st LC_HOOK_FAILED reason with
    | (Except.error e, st1) => (Except.error e, st1)
    | (Except.ok _, st1) =>
        (Except.ok (),
          set_context (set_context st1 a.label STATUS_CODE StatusCode.failed.value)
            a.label STATUS_REASON reason)

/-- `BaseAction.set_running(reason)`. -/
def set_running (env : Env) (a : Action) (st : AState) (reason : PyStr) :
    Except PyExc Unit × AState :=
  if is_running a st && (get_status_reason a st = some reason) then
    (Except.ok (), st)
  else
    match execute_lifecycle_hooks env a st LC_HOOK_RUNNING reason with
    | (Except.error e, st1) => (Except.error e, st1)
    | (Except.ok _, st1) =>
        (Except.ok (),
          set_context (set_context st1 a.label STATUS_CODE StatusCode.running.value)
            a.label STATUS_REASON reason)

/-- `BaseAction.set_complete(reason)`. -/
def set_complete (env : Env) (a : Action) (st : AState) (reason : PyStr) :
    Except PyExc Unit × AState :=
  if is_complete a st && (get_status_reason a st = some reason) then
    (Except.ok (), st)
  else
    match execute_lifecycle_hooks env a st LC_HOOK_COMPLETE reason with
    | (Except.error e, st1) => (Except.error e, st1)
    | (Except.ok _, st1) =>
        (Except.ok (),
          set_context (set_context st1 a.label STATUS_CODE StatusCode.complete.value)
            a.label STATUS_REASON reason)

/-- `BaseAction.set_skipped(reason)`: no-op when already complete with the
same reason; otherwise write `complete` and the reason directly.  The
source fires no lifecycle hooks here, so this operation cannot raise. -/
def set_skipped (a : Action) (st : AState) (reason : PyStr) : AState :=
  if is_complete a st && (get_status_reason a st = some reason) then st
  else
    set_context (set_context st a.label STATUS_CODE StatusCode.complete.value)
      a.label STATUS_REASON reason

/- ===== state and output helpers ===== -/

/-- `BaseAction.set_output(name, value)`: write to the output namespace
only when output saving was enabled, and always to the state namespace. -/
def set_output (a : Action) (st : AState) (name value : PyStr) : AState :=
  let st :=
    match a.output_namespace with
    | some ns => set_context st ns name value
    | Option.none => st
  set_context st a.state_namespace name value

/-- `BaseAction.get_output(name)`: `None` when output saving is disabled,
else a no-default context lookup (which raises on a missing key). -/
def get_output (a : Action) (st : AState) (name : PyStr) :
    Except PyExc (Option PyStr) :=
  match a.output_namespace with
  | Option.none => Except.ok Option.none
  | some ns => get_context st.context ns name GcDefault.sentinel

/-- `BaseAction.set_state(name, value)`. -/
def set_state (a : Action) (st : AState) (name value : PyStr) : AState :=
  set_context st a.state_namespace name value

/-- `BaseAction.get_state(name)`: a no-default context lookup. -/
def get_state (a : Action) (st : AState) (name : PyStr) :
    Except PyExc (Option PyStr) :=
  get_context st.context a.state_namespace name GcDefault.sentinel

/- ===== the execution wrapper (`execute` / `check`) ===== -/

/-- The condition template `"{{{{ {} }}}}".format(self.condition)`,
i.e. the condition wrapped in double braces. -/
def condTemplate (condition : PyStr) : PyStr :=
  pys "\x7b\x7b " ++ condition ++ pys " \x7d\x7d"

/-- The `"Condition evaluated to '{}'"` skip reason. -/
def skipReasonFor (rendered : PyStr) : PyStr :=
  pys "Condition evaluated to " ++ [sqc] ++ rendered ++ [sqc]

/-- The diagnostic the trapping boundary builds from a caught exception:
`"Internal error {type} in {file} at {line} - {msg}\nTraceback:\n{tb}"`
(kept right-associated so that each classification component is visibly a
factor of the string). -/
def format_internal_error (e : PyExc) : PyStr :=
  pys "Internal error " ++
    (e.typeName ++
      (pys " in " ++
        (e.fname ++
          (pys " at " ++
            (intStr e.lineno ++
              (pys " - " ++
                (e.msg ++ (pys "\nTraceback:\n" ++ e.tb))))))))

/-- The `try:` body of `BaseAction.execute`: render the wrapped condition
against the live context; when it lowercases to `"true"` run the concrete
action's `_resolve` then `_execute`, otherwise `set_skipped` with a reason
quoting the rendered value. -/
def execute_body (env : Env) (a : Action) (st : AState) :
    Except PyExc Unit × AState :=
  match env.render (condTemplate a.condition) st.context with
  | Except.error e => (Except.error e, st)
  | Except.ok condition_result =>
      if pyLower condition_result = pys "true" then
        match env.resolveImpl st with
        | (Except.ok _, st1) => env.executeImpl st1
        | (Except.error e, st1) => (Except.error e, st1)
      else
        (Except.ok (), set_skipped a st (skipReasonFor condition_result))

/-- `BaseAction.execute()`: run the body; trap any exception and convert
it to `set_failed` with the formatted diagnostic.  `set_failed` itself
runs the `Failed` lifecycle hooks, so an exception raised there leaves the
`except` block and propagates to the caller (the `finally` clause only
resets the log identity). -/
def execute (env : Env) (a : Action) (st : AState) :
    Except PyExc Unit × AState :=
  match execute_body env a st with
  | (Except.ok _, st1) => (Except.ok (), st1)
  | (Except.error e, st1) => set_failed env a st1 (format_internal_error e)

/-- The `try:` body of `BaseAction.check`: unconditionally `_resolve` then
`_check` (no condition gate). -/
def check_body (env : Env) (st : AState) : Except PyExc Unit × AState :=
  match env.resolveImpl st with
  | (Except.ok _, st1) => env.checkImpl st1
  | (Except.error e, st1) => (Except.error e, st1)

/-- `BaseAction.check()`: same trapping boundary as `execute`. -/
def check (env : Env) (a : Action) (st : AState) :
    Except PyExc Unit × AState :=
  match check_body env st with
  | (Except.ok _, st1) => (Except.ok (), st1)
  | (Except.error e, st1) => set_failed env a st1 (format_internal_error e)

/- ===== helper lemmas about the setters ===== -/

theorem set_context_trace (st : AState) (prn name value : PyStr) :
    (set_context st prn name value).trace = st.trace := rfl

/-- After a successful `set_failed reason`, the stored status is `failed`
and the stored reason is `reason` (whether or not the guard short-cut was
taken). -/
theorem set_failed_post (env : Env) (a : Action) (st st' : AState) (r : PyStr)
    (h : set_failed env a st r = (Except.ok (), st')) :
    get_status_code a st' = StatusCode.failed.value ∧
    get_status_reason a st' = some r := by
  unfold set_failed at h
  split at h
  · next hguard =>
      simp only [Prod.mk.injEq, true_and] at h
      simp only [is_failed, Bool.and_eq_true, decide_eq_true_eq] at hguard
      subst h
      exact hguard
  · next hguard =>
      split at h
      · next e st1 heq => simp at h
      · next u st1 heq =>
          simp only [Prod.mk.injEq, true_and] at h
          subst h
          constructor
          · rw [get_status_code_eq]
            unfold set_context
            rw [dictFind_dictSet_ne _ _ _ _ (Ne.symm (statusKeys_ne a.label)),
              dictFind_dictSet_self]
            rfl
          · rw [get_status_reason_eq]
            unfold set_context
            rw [dictFind_dictSet_self]

/-- After a successful `set_complete reason`, the stored status is
`complete` and the stored reason is `reason`. -/
theorem set_complete_post (env : Env) (a : Action) (st st' : AState) (r : PyStr)
    (h : set_complete env a st r = (Except.ok (), st')) :
    get_status_code a st' = StatusCode.complete.value ∧
    get_status_reason a st' = some r := by
  unfold set_complete at h
  split at h
  · next hguard =>
      simp only [Prod.mk.injEq, true_and] at h
      simp only [is_complete, Bool.and_eq_true, decide_eq_true_eq] at hguard
      subst h
      exact hguard
  · next hguard =>
      split at h
      · next e st1 heq => simp at h
      · next u st1 heq =>
          simp only [Prod.mk.injEq, true_and] at h
          subst h
          constructor
          · rw [get_status_code_eq]
            unfold set_context
            rw [dictFind_dictSet_ne _ _ _ _ (Ne.symm (statusKeys_ne a.label)),
              dictFind_dictSet_self]
            rfl
          · rw [get_status_reason_eq]
            unfold set_context
            rw [dictFind_dictSet_self]

/-- `set_skipped` always leaves status `complete` with the given reason and
never emits an observable event. -/
theorem set_skipped_post (a : Action) (st : AState) (r : PyStr) :
    get_status_code a (set_skipped a st r) = StatusCode.complete.value ∧
    get_status_reason a (set_skipped a st r) = some r ∧
    (set_skipped a st r).trace = st.trace := by
  unfold set_skipped
  split
  · next hguard =>
      simp only [is_complete, Bool.and_eq_true, decide_eq_true_eq] at hguard
      exact ⟨hguard.1, hguard.2, rfl⟩
  · refine ⟨?_, ?_, rfl⟩
    · rw [get_status_code_eq]
      unfold set_context
      rw [dictFind_dictSet_ne _ _ _ _ (Ne.symm (statusKeys_ne a.label)),
        dictFind_dictSet_self]
      rfl
    · rw [get_status_reason_eq]
      unfold set_context
      rw [dictFind_dictSet_self]

/- ===== concrete fixtures used by witnesses and counterexamples ===== -/

/-- A plain action with no lifecycle hooks and no output namespace. -/
def aL : Action :=
  { label := pys "scope:action/a"
  , action_name := pys "a"
  , output_namespace := Option.none
  , state_namespace := pys "scope:var/a"
  , typ := pys "T"
  , condition := pys "True"
  , before := []
  , after := []
  , params := []
  , lifecycle_hooks := [] }

/-- An environment whose renderer echoes its template and whose external
calls all succeed. -/
def okEnv : Env :=
  { render := fun s _ => Except.ok s
  , resolveImpl := fun st => (Except.ok (), st)
  , executeImpl := fun st => (Except.ok (), st)
  , checkImpl := fun st => (Except.ok (), st)
  , usFail := fun _ _ _ _ => Option.none
  , uiFail := fun _ _ => Option.none }

/-- The empty initial state. -/
def st0 : AState := { context := [], trace := [] }

/-- The state after `set_failed "r"` from `st0` for `aL`. -/
def stFailedR : AState :=
  { context := [(pys "scope:action/a/StatusCode", pys "failed"),
                (pys "scope:action/a/StatusReason", pys "r")]
  , trace := [] }

/-- A state already `complete` with reason `"r"` for `aL`. -/
def stCompleteR : AState :=
  { context := [(pys "scope:action/a/StatusCode", pys "complete"),
                (pys "scope:action/a/StatusReason", pys "r")]
  , trace := [] }

/- ===== C2 ===== -/

/-- C2: a status setter called when the current status already equals its
target state with an identical stored reason returns immediately, leaving
the state (context and effect trace) untouched; hence calling the same
terminal-state setter twice in succession with an identical reason
produces exactly the effects of the first call — the second call fires no
hook and performs no context write. -/
theorem set_status_idempotent (env : Env) (a : Action) (st : AState)
    (r : PyStr) :
    (is_failed a st = true → get_status_reason a st = some r →
      set_failed env a st r = (Except.ok (), st)) ∧
    (is_running a st = true → get_status_reason a st = some r →
      set_running env a st r = (Except.ok (), st)) ∧
    (is_complete a st = true → get_status_reason a st = some r →
      set_complete env a st r = (Except.ok (), st)) ∧
    (∀ st', set_failed env a st r = (Except.ok (), st') →
      set_failed env a st' r = (Except.ok (), st')) ∧
    (∀ st', set_complete env a st r = (Except.ok (), st') →
      set_complete env a st' r = (Except.ok (), st')) := by
  refine ⟨?_, ?_, ?_, ?_, ?_⟩
  · intro h1 h2
    unfold set_failed
    rw [if_pos (by simp [h1, h2])]
  · intro h1 h2
    unfold set_running
    rw [if_pos (by simp [h1, h2])]
  · intro h1 h2
    unfold set_complete
    rw [if_pos (by simp [h1, h2])]
  · intro st' h
    obtain ⟨hc, hr⟩ := set_failed_post env a st st' r h
    unfold set_failed
    rw [if_pos (by simp [is_failed, hc, hr])]
  · intro st' h
    obtain ⟨hc, hr⟩ := set_complete_post env a st st' r h
    unfold set_complete
    rw [if_pos (by simp [is_complete, hc, hr])]

/-- C2 witness: concrete instances — a repeated `set_failed` in an
already-failed state is the identity, likewise `set_complete`, and the
state reached by a first `set_failed` from scratch is a fixed point of a
second identical call. -/
theorem set_status_idempotent_witness :
    set_failed okEnv aL stFailedR (pys "r") = (Except.ok (), stFailedR) ∧
    set_complete okEnv aL stCompleteR (pys "r") = (Except.ok (), stCompleteR) ∧
    set_failed okEnv aL stFailedR (pys "r") = (Except.ok (), stFailedR) ∧
    set_complete okEnv aL stCompleteR (pys "r") = (Except.ok (), stCompleteR) :=
  ⟨(set_status_idempotent okEnv aL stFailedR (pys "r")).1 rfl rfl,
   (set_status_idempotent okEnv aL stCompleteR (pys "r")).2.2.1 rfl rfl,
   (set_status_idempotent okEnv aL st0 (pys "r")).2.2.2.1 stFailedR rfl,
   (set_status_idempotent okEnv aL st0 (pys "r")).2.2.2.2 stCompleteR rfl⟩

/- ===== C3 ===== -/

/-- C3: when the condition renders (without raising) to any string whose
lowercasing is not `"true"`, `execute` succeeds via the skip path: the
stored status becomes `complete` (never `running` or `failed`) with a
reason quoting the rendered value, and the result does not depend on the
concrete action's `_resolve`/`_execute`/`_check` bodies — they are not
invoked. -/
theorem condition_false_skips (env : Env) (a : Action) (st : AState)
    (cr : PyStr)
    (hrender : env.render (condTemplate a.condition) st.context = Except.ok cr)
    (hneq : pyLower cr ≠ pys "true") :
    execute env a st = (Except.ok (), set_skipped a st (skipReasonFor cr)) ∧
    get_status_code a (set_skipped a st (skipReasonFor cr)) =
      StatusCode.complete.value ∧
    get_status_reason a (set_skipped a st (skipReasonFor cr)) =
      some (skipReasonFor cr) ∧
    get_status_code a (set_skipped a st (skipReasonFor cr)) ≠
      StatusCode.running.value ∧
    get_status_code a (set_skipped a st (skipReasonFor cr)) ≠
      StatusCode.failed.value ∧
    (∀ f g h : AState → Except PyExc Unit × AState,
      execute { env with resolveImpl := f, executeImpl := g, checkImpl := h } a st
        = execute env a st) := by
  have key : ∀ env' : Env, env'.render = env.render →
      execute env' a st = (Except.ok (), set_skipped a st (skipReasonFor cr)) := by
    intro env' hre
    unfold execute execute_body
    rw [hre, hrender]
    simp [hneq]
  obtain ⟨hc, hr, -⟩ := set_skipped_post a st (skipReasonFor cr)
  refine ⟨key env rfl, hc, hr, ?_, ?_, ?_⟩
  · rw [hc]; decide
  · rw [hc]; decide
  · intro f g h
    rw [key { env with resolveImpl := f, executeImpl := g, checkImpl := h } rfl,
      key env rfl]

/-- An environment whose renderer renders every template to `"False"`. -/
def cFalseEnv : Env := { okEnv with render := fun _ _ => Except.ok (pys "False") }

/-- C3 witness: with a renderer yielding `"False"`, `execute` takes the
skip path and the stored status is `complete`. -/
theorem condition_false_skips_witness :
    execute cFalseEnv aL st0 =
      (Except.ok (), set_skipped aL st0 (skipReasonFor (pys "False"))) ∧
    get_status_code aL (set_skipped aL st0 (skipReasonFor (pys "False"))) =
      StatusCode.complete.value :=
  ⟨(condition_false_skips cFalseEnv aL st0 (pys "False") rfl (by decide)).1,
   (condition_false_skips cFalseEnv aL st0 (pys "False") rfl (by decide)).2.1⟩

/- ===== C4 ===== -/

/-- A hook listening on the `Complete` event, with a status and a
5-segment identity declared at the `Parameters` level. -/
def c4Hook : Hook :=
  { typ := pys "status"
  , states := [LC_HOOK_COMPLETE]
  , parameters := some
      { onEvent := [(pys "OnComplete",
          { status := some (pys "X")
          , message := Option.none
          , identity := Option.none
          , details := Option.none })]
      , identity := some (pys "a:b:c:d:e")
      , details := Option.none }
  , identity := Option.none
  , details := Option.none }

/-- `aL` with the `Complete` status hook declared. -/
def c4Action : Action := { aL with lifecycle_hooks := [c4Hook] }

/-- C4 counterexample: for an action declaring a well-formed status hook
on the `Complete` event, a state-changing `set_skipped` (the skip
transition) emits no observable event at all — in particular it does not
fire the `Complete` hook — while `set_complete` from the same state does
fire it.  This contradicts the claim that skipping behaves like
`set_complete` including hook firing. -/
theorem set_skipped_fires_no_hooks_cex :
    (set_skipped c4Action st0 (pys "skip")).trace = [] ∧
    (set_skipped c4Action st0 (pys "skip")).context ≠ st0.context ∧
    (set_complete okEnv c4Action st0 (pys "skip")).2.trace ≠ [] := by
  refine ⟨rfl, by decide, by decide⟩

/-- C4 (amended): the skip transition writes the `complete` status code
and the distinguishing reason into the blackboard exactly like
`set_complete` does, but it fires no lifecycle hooks and emits no
observable effect whatsoever, whether or not it is state-changing. -/
theorem set_skipped_writes_without_hooks (a : Action) (st : AState)
    (r : PyStr) :
    (set_skipped a st r).trace = st.trace ∧
    get_status_code a (set_skipped a st r) = StatusCode.complete.value ∧
    get_status_reason a (set_skipped a st r) = some r :=
  ⟨(set_skipped_post a st r).2.2, (set_skipped_post a st r).1,
   (set_skipped_post a st r).2.1⟩

/- ===== C5 ===== -/

/-- C5: a status update whose identity splits on `":"` into exactly 6
segments and whose status contains the `"_FAILED"` marker pushes an
`update_status` to the 6-segment component identity (which is the original
identity itself) and additionally pushes a failed `update_status` to the
parent build addressed by the 5-segment prefix. -/
theorem component_failed_bubbles_to_build (env : Env) (st : AState)
    (identity status message : PyStr) (details : Option PyStr)
    (cprn bprn : PyStr)
    (hc : cprn = pyJoinChar colon ((pySplitChar identity colon).take 6))
    (hb : bprn = pyJoinChar colon ((pySplitChar identity colon).take 5))
    (h6 : (pySplitChar identity colon).length = 6)
    (hfail : pyContains status (pys "_FAILED") = true)
    (hok1 : env.usFail cprn status (some message) details = Option.none)
    (hok2 : env.usFail bprn status Option.none Option.none = Option.none) :
    update_item_status env st identity status message details =
      { st with trace := st.trace ++
          [Ev.callUpdateStatus cprn status (some message) details,
           Ev.callUpdateStatus bprn status Option.none Option.none] } ∧
    cprn = identity := by
  have hid : cprn = identity := by
    rw [hc, show (pySplitChar identity colon).take 6 = pySplitChar identity colon
        from by rw [← h6, List.take_length]]
    exact List.intercalate_splitOn identity colon
  subst hc hb
  refine ⟨?_, hid⟩
  unfold update_item_status
  simp only [h6]
  rw [if_pos trivial, hok1]
  simp only [hfail, ite_true]
  rw [hok2]
  simp [emit, List.append_assoc]

/-- C5 witness: a concrete 6-segment component identity with a
`"_FAILED"` status pushes the component update and the build-level
cascade. -/
theorem component_failed_bubbles_to_build_witness :
    update_item_status okEnv st0 (pys "p:a:b:c:d:e") (pys "DEPLOY_FAILED")
        (pys "m") Option.none =
      { st0 with trace := st0.trace ++
          [Ev.callUpdateStatus (pys "p:a:b:c:d:e") (pys "DEPLOY_FAILED")
             (some (pys "m")) Option.none,
           Ev.callUpdateStatus (pys "p:a:b:c:d") (pys "DEPLOY_FAILED")
             Option.none Option.none] } ∧
    pys "p:a:b:c:d:e" = pys "p:a:b:c:d:e" :=
  component_failed_bubbles_to_build okEnv st0 (pys "p:a:b:c:d:e")
    (pys "DEPLOY_FAILED") (pys "m") Option.none
    (pys "p:a:b:c:d:e") (pys "p:a:b:c:d")
    (by decide) (by decide) (by decide) (by decide) rfl rfl

/- ===== C6 ===== -/

/-- C6: the propagation adapter never touches the blackboard context (so
it never changes the action's own status or reason), and an exception from
the external tracking collaborator is swallowed and logged as a warning —
shown here for the component-level call; the adapter returns normally by
construction (the source wraps its whole body in `try/except`). -/
theorem propagation_best_effort (env : Env) (st : AState)
    (identity status message : PyStr) (details : Option PyStr) (m : PyStr) :
    (update_item_status env st identity status message details).context =
      st.context ∧
    (∀ a : Action,
      get_status_code a (update_item_status env st identity status message details)
          = get_status_code a st ∧
      get_status_reason a (update_item_status env st identity status message details)
          = get_status_reason a st) ∧
    ((pySplitChar identity colon).length = 6 →
      env.usFail (pyJoinChar colon ((pySplitChar identity colon).take 6)) status
          (some message) details = some m →
      update_item_status env st identity status message details =
        emit st (Ev.warn (apiWarnMsg m))) := by
  have hctx : (update_item_status env st identity status message details).context
      = st.context := by
    simp only [update_item_status]
    repeat' split
    all_goals rfl
  refine ⟨hctx, ?_, ?_⟩
  · intro a
    rw [get_status_code_eq, get_status_code_eq, get_status_reason_eq,
      get_status_reason_eq, hctx]
    exact ⟨rfl, rfl⟩
  · intro h6 hf
    unfold update_item_status
    simp only [h6]
    rw [if_pos trivial, hf, if_neg (by decide)]

/-- An environment whose `update_status` collaborator always raises. -/
def apiFailEnv : Env :=
  { okEnv with usFail := fun _ _ _ _ => some (pys "down") }

/-- C6 witness: a failing external call is converted into a single logged
warning and nothing else. -/
theorem propagation_best_effort_witness :
    update_item_status apiFailEnv st0 (pys "p:a:b:c:d:e") (pys "X_FAILED")
        (pys "m") Option.none =
      emit st0 (Ev.warn (apiWarnMsg (pys "down"))) :=
  (propagation_best_effort apiFailEnv st0 (pys "p:a:b:c:d:e") (pys "X_FAILED")
      (pys "m") Option.none (pys "down")).2.2 (by decide) rfl

/- ===== C7 ===== -/

/-- C7: with output visibility disabled (`output_namespace = None`),
`set_output` performs exactly the single state-namespace write; with it
enabled, the value lands under both the output and the state namespace;
in both cases every other context key is untouched. -/
theorem set_output_dual_write_frame (a : Action) (st : AState)
    (name value : PyStr) :
    (a.output_namespace = Option.none →
      (set_output a st name value).context =
        dictSet st.context (a.state_namespace ++ pys "/" ++ name) value ∧
      dictFind (set_output a st name value).context
          (a.state_namespace ++ pys "/" ++ name) = some value ∧
      ∀ k, k ≠ a.state_namespace ++ pys "/" ++ name →
        dictFind (set_output a st name value).context k =
          dictFind st.context k) ∧
    (∀ ns, a.output_namespace = some ns →
      dictFind (set_output a st name value).context (ns ++ pys "/" ++ name) =
        some value ∧
      dictFind (set_output a st name value).context
          (a.state_namespace ++ pys "/" ++ name) = some value ∧
      ∀ k, k ≠ ns ++ pys "/" ++ name → k ≠ a.state_namespace ++ pys "/" ++ name →
        dictFind (set_output a st name value).context k =
          dictFind st.context k) := by
  constructor
  · intro h
    refine ⟨?_, ?_, ?_⟩
    · simp only [set_output, set_context, h]
    · simp only [set_output, set_context, h]
      exact dictFind_dictSet_self _ _ _
    · intro k hk
      simp only [set_output, set_context, h]
      exact dictFind_dictSet_ne _ _ _ _ hk
  · intro ns h
    simp only [set_output, set_context, h]
    refine ⟨?_, dictFind_dictSet_self _ _ _, ?_⟩
    · by_cases he : ns ++ pys "/" ++ name = a.state_namespace ++ pys "/" ++ name
      · rw [he]
        exact dictFind_dictSet_self _ _ _
      · rw [dictFind_dictSet_ne _ _ _ _ he]
        exact dictFind_dictSet_self _ _ _
    · intro k hk1 hk2
      rw [dictFind_dictSet_ne _ _ _ _ hk2, dictFind_dictSet_ne _ _ _ _ hk1]

/-- `aL` with output visibility enabled (an output namespace present). -/
def aOut : Action := { aL with output_namespace := some (pys "scope:output") }

/-- C7 witness: concrete single and dual writes. -/
theorem set_output_dual_write_frame_witness :
    dictFind (set_output aL st0 (pys "x") (pys "v")).context
        (aL.state_namespace ++ pys "/" ++ pys "x") = some (pys "v") ∧
    dictFind (set_output aOut st0 (pys "x") (pys "v")).context
        (pys "scope:output" ++ pys "/" ++ pys "x") = some (pys "v") ∧
    dictFind (set_output aOut st0 (pys "x") (pys "v")).context
        (aOut.state_namespace ++ pys "/" ++ pys "x") = some (pys "v") :=
  ⟨((set_output_dual_write_frame aL st0 (pys "x") (pys "v")).1 rfl).2.1,
   ((set_output_dual_write_frame aOut st0 (pys "x") (pys "v")).2
      (pys "scope:output") rfl).1,
   ((set_output_dual_write_frame aOut st0 (pys "x") (pys "v")).2
      (pys "scope:output") rfl).2.1⟩

/- ===== C9 ===== -/

/-- C9: `get_state` on a key that was never written under the action's
state namespace, with no default supplied, raises the `KeyError` (it does
not return a silent null). -/
theorem get_state_missing_key_raises (a : Action) (st : AState) (name : PyStr)
    (h : dictFind st.context (a.state_namespace ++ pys "/" ++ name) =
      Option.none) :
    get_state a st name = Except.error (keyErrorExc name) := by
  unfold get_state get_context
  rw [h]

/-- C9 witness: reading an untouched key from the empty context raises. -/
theorem get_state_missing_key_raises_witness :
    get_state aL st0 (pys "x") = Except.error (keyErrorExc (pys "x")) :=
  get_state_missing_key_raises aL st0 (pys "x") rfl

/- ===== C10 ===== -/

/-- C10: an action constructed with `SaveOutputs = False` has no output
namespace, and `get_output` then returns `None` for every name without
consulting the context (the same call on any other state gives the same
result) and without raising the key-not-found failure. -/
theorem get_output_disabled_returns_none (d : ActionDefinition) (st : AState)
    (name : PyStr) (h : d.SaveOutputs = false) :
    get_output (mkAction d) st name = Except.ok Option.none ∧
    (∀ st' : AState,
      get_output (mkAction d) st' name = get_output (mkAction d) st name) := by
  have hns : (mkAction d).output_namespace = Option.none := by
    simp [mkAction, h]
  constructor
  · unfold get_output
    rw [hns]
  · intro st'
    unfold get_output
    rw [hns]

/-- A definition with output saving disabled. -/
def d0 : ActionDefinition :=
  { «Label» := pys "scope:action/a"
  , «Type» := pys "T"
  , «Condition» := pys "True"
  , «Before» := []
  , «After» := []
  , «DependsOn» := []
  , «Params» := []
  , «LifecycleHooks» := []
  , «SaveOutputs» := false }

/-- C10 witness: the concrete disabled action yields `None`. -/
theorem get_output_disabled_returns_none_witness :
    get_output (mkAction d0) st0 (pys "x") = Except.ok Option.none :=
  (get_output_disabled_returns_none d0 st0 (pys "x") rfl).1

/- ===== C8 ===== -/

/-- The identity resolution the claim describes (written from the claim's
words, for comparison with the source's `get_idenity_parameter`): read
`Identity` from the hook's `On<Event>` parameter bundle, falling back to
the hook-root-level `Identity` when it is not nested there. -/
def claimed_idenity_resolution (event : PyStr) (hook : Hook) : Option PyStr :=
  match hook.parameters with
  | some parms =>
      match onEventFind parms.onEvent (pys "On" ++ event) with
      | some action =>
          match action.identity with
          | some i => some i
          | Option.none => hook.identity
      | Option.none => hook.identity
  | Option.none => hook.identity

/-- A hook with `Identity` nested inside the `OnFailed` bundle and a
root-level `Identity`, but no `Identity` at the `Parameters` top level. -/
def c8Hook : Hook :=
  { typ := pys "status"
  , states := [LC_HOOK_FAILED]
  , parameters := some
      { onEvent := [(pys "OnFailed",
          { status := some (pys "S")
          , message := Option.none
          , identity := some (pys "x:y:z:u:v:w")
          , details := Option.none })]
      , identity := Option.none
      , details := Option.none }
  , identity := some (pys "root:r:r:r:r")
  , details := Option.none }

/-- C8 counterexample: the claim's resolution rule yields the identity
nested in the `OnFailed` bundle (`"x:y:z:u:v:w"`), but the source reads
`Identity` only at the `Parameters` top level — falling back to the hook
root only when no `Parameters` key exists at all — so it resolves no
identity here, and the status-hook handler logs the missing-identity
warning and pushes nothing, despite both a nested and a root-level
identity being declared. -/
theorem identity_resolution_cex :
    get_idenity_parameter LC_HOOK_FAILED c8Hook = Option.none ∧
    claimed_idenity_resolution LC_HOOK_FAILED c8Hook = some (pys "x:y:z:u:v:w") ∧
    execute_status_hook okEnv st0 LC_HOOK_FAILED c8Hook (pys "r") =
      (Except.ok (),
        emit (emit st0 (Ev.hookFired LC_HOOK_FAILED)) (Ev.warn noIdentityWarn)) :=
  ⟨rfl, rfl, rfl⟩

/-- C8 (amended): the handler resolves status and message from the hook's
`On<Event>` parameter bundle; identity and details are resolved from the
top level of the hook's `Parameters` dict — not from the `On<Event>`
bundle — and fall back to the hook-root-level parameters only when the
hook has no `Parameters` key at all.  With all of them present, truthy
and rendering successfully, the handler pushes the update built from the
rendered `Parameters`-level identity. -/
theorem hook_parameter_resolution (env : Env) (st : AState)
    (event reason : PyStr) (hook : Hook) (p : HookParameters)
    (act : OnEventParams) (s i s2 i2 : PyStr)
    (hp : hook.parameters = some p)
    (hact : onEventFind p.onEvent (pys "On" ++ event) = some act)
    (hs : act.status = some s)
    (hmsg : act.message = Option.none)
    (hi : p.identity = some i)
    (hsne : s ≠ [])
    (hine : i ≠ [])
    (hrs : env.render s st.context = Except.ok s2)
    (hri : env.render i st.context = Except.ok i2)
    (hs2 : s2 ≠ [])
    (hi2 : i2 ≠ [])
    (hr : reason ≠ []) :
    get_status_parameter event hook = some s ∧
    get_message_parameter event hook = Option.none ∧
    get_idenity_parameter event hook = some i ∧
    get_details_parameter event hook = p.details ∧
    execute_status_hook env st event hook reason =
      (Except.ok (),
        update_item_status env (emit st (Ev.hookFired event)) i2 s2 reason
          p.details) ∧
    (∀ hook2 : Hook, hook2.parameters = Option.none →
      get_idenity_parameter event hook2 = hook2.identity ∧
      get_details_parameter event hook2 = hook2.details) := by
  have hgs : get_status_parameter event hook = some s := by
    simp [get_status_parameter, hp, hact, hs]
  have hgm : get_message_parameter event hook = Option.none := by
    simp [get_message_parameter, hp, hact, hmsg]
  have hgi : get_idenity_parameter event hook = some i := by
    simp [get_idenity_parameter, hp, hi]
  have hgd : get_details_parameter event hook = p.details := by
    simp [get_details_parameter, hp]
  have hts : truthy (some s) = true := by simp [truthy, hsne]
  have hti : truthy (some i) = true := by simp [truthy, hine]
  have hts2 : truthy (some s2) = true := by simp [truthy, hs2]
  have hti2 : truthy (some i2) = true := by simp [truthy, hi2]
  have htr : truthy (some reason) = true := by simp [truthy, hr]
  refine ⟨hgs, hgm, hgi, hgd, ?_, ?_⟩
  · simp only [execute_status_hook, renderIfTruthy, emit, hgs, hgm, hgi, hgd,
      hts, hti, hts2, hti2, htr, Option.getD_some, if_true, if_false,
      Bool.false_eq_true]
    simp only [truthy, hrs, hri]
    simp [hr, truthy]
    rw [if_neg hs2, if_neg hi2]
  · intro hook2 h2
    constructor
    · simp [get_idenity_parameter, h2]
    · simp [get_details_parameter, h2]

/-- The `On<Event>` bundle of the C8 witness hook. -/
def c8wAct : OnEventParams :=
  { status := some (pys "S")
  , message := Option.none
  , identity := Option.none
  , details := Option.none }

/-- The `Parameters` dict of the C8 witness hook: the identity lives at
the `Parameters` top level. -/
def c8wParams : HookParameters :=
  { onEvent := [(pys "OnFailed", c8wAct)]
  , identity := some (pys "p:a:b:c:d:e")
  , details := Option.none }

/-- The C8 witness hook. -/
def c8wHook : Hook :=
  { typ := pys "status"
  , states := [LC_HOOK_FAILED]
  , parameters := some c8wParams
  , identity := Option.none
  , details := Option.none }

/-- C8 witness: the concrete hook resolves its status from the `OnFailed`
bundle and its identity from the `Parameters` top level, and the handler
pushes the corresponding update. -/
theorem hook_parameter_resolution_witness :
    get_status_parameter LC_HOOK_FAILED c8wHook = some (pys "S") ∧
    get_idenity_parameter LC_HOOK_FAILED c8wHook = some (pys "p:a:b:c:d:e") ∧
    execute_status_hook okEnv st0 LC_HOOK_FAILED c8wHook (pys "r") =
      (Except.ok (),
        update_item_status okEnv (emit st0 (Ev.hookFired LC_HOOK_FAILED))
          (pys "p:a:b:c:d:e") (pys "S") (pys "r") Option.none) :=
  ⟨(hook_parameter_resolution okEnv st0 LC_HOOK_FAILED (pys "r") c8wHook
      c8wParams c8wAct (pys "S") (pys "p:a:b:c:d:e") (pys "S")
      (pys "p:a:b:c:d:e") rfl rfl rfl rfl rfl (by decide) (by decide) rfl rfl
      (by decide) (by decide) (by decide)).1,
   (hook_parameter_resolution okEnv st0 LC_HOOK_FAILED (pys "r") c8wHook
      c8wParams c8wAct (pys "S") (pys "p:a:b:c:d:e") (pys "S")
      (pys "p:a:b:c:d:e") rfl rfl rfl rfl rfl (by decide) (by decide) rfl rfl
      (by decide) (by decide) (by decide)).2.2.1,
   (hook_parameter_resolution okEnv st0 LC_HOOK_FAILED (pys "r") c8wHook
      c8wParams c8wAct (pys "S") (pys "p:a:b:c:d:e") (pys "S")
      (pys "p:a:b:c:d:e") rfl rfl rfl rfl rfl (by decide) (by decide) rfl rfl
      (by decide) (by decide) (by decide)).2.2.2.2.1⟩

/- ===== C1 ===== -/

/-- An exception raised inside a concrete action body. -/
def c1Exc : PyExc :=
  { typeName := pys "RuntimeError"
  , fname := pys "no_op.py"
  , lineno := 10
  , msg := pys "boom"
  , tb := pys "Traceback (most recent call last): boom" }

/-- `aL` with a lifecycle hook of an unsupported type listening on the
`Failed` event. -/
def badHookAction : Action :=
  { aL with lifecycle_hooks :=
      [{ typ := pys "notify"
       , states := [LC_HOOK_FAILED]
       , parameters := Option.none
       , identity := Option.none
       , details := Option.none }] }

/-- An environment whose condition renders true and whose `_resolve`
raises. -/
def raiseEnv : Env :=
  { okEnv with
      render := fun _ _ => Except.ok (pys "true")
    , resolveImpl := fun st => (Except.error c1Exc, st) }

/-- C1 counterexample: when `_resolve` raises and the action declares a
`Failed` lifecycle hook of an unsupported type, `set_failed` inside the
`except` handler raises `Exception("Unsupported hook type ...")`, which
propagates out of `execute()` to the caller, and the stored status never
becomes `failed` (it stays `pending`) — so the claim's "no exception
propagates, for any exception whatsoever" is false on the code. -/
theorem execute_trap_propagates_cex :
    execute raiseEnv badHookAction st0 =
      (Except.error (unsupportedHookExc (pys "notify")), st0) ∧
    get_status_code badHookAction st0 = StatusCode.pending.value :=
  ⟨rfl, rfl⟩

/-- C1 (amended): any exception escaping the `try` body of `execute()` or
`check()` is trapped and converted into `set_failed` with the formatted
diagnostic — provided that `set_failed` on that diagnostic itself returns
normally (e.g. every hook matching the `Failed` event is a well-formed
status hook whose templates render; otherwise the hook-dispatch exception
propagates, see the counterexample).  The call then returns normally, the
stored status is `failed`, and the stored reason is the non-empty
diagnostic containing the exception's type name, message and traceback. -/
theorem internal_error_trap (env : Env) (a : Action) (st : AState)
    (e : PyExc) :
    (∀ st1 st2, execute_body env a st = (Except.error e, st1) →
      set_failed env a st1 (format_internal_error e) = (Except.ok (), st2) →
      execute env a st = (Except.ok (), st2) ∧
      get_status_code a st2 = StatusCode.failed.value ∧
      get_status_reason a st2 = some (format_internal_error e)) ∧
    (∀ st1 st2, check_body env st = (Except.error e, st1) →
      set_failed env a st1 (format_internal_error e) = (Except.ok (), st2) →
      check env a st = (Except.ok (), st2) ∧
      get_status_code a st2 = StatusCode.failed.value ∧
      get_status_reason a st2 = some (format_internal_error e)) ∧
    format_internal_error e ≠ [] ∧
    (∃ x y, format_internal_error e = x ++ (e.typeName ++ y)) ∧
    (∃ x y, format_internal_error e = x ++ (e.msg ++ y)) ∧
    (∃ x, format_internal_error e = x ++ e.tb) := by
  refine ⟨?_, ?_, ?_, ?_, ?_, ?_⟩
  · intro st1 st2 hbody hsf
    obtain ⟨hc, hr⟩ := set_failed_post env a st1 st2 _ hsf
    refine ⟨?_, hc, hr⟩
    unfold execute
    rw [hbody]
    exact hsf
  · intro st1 st2 hbody hsf
    obtain ⟨hc, hr⟩ := set_failed_post env a st1 st2 _ hsf
    refine ⟨?_, hc, hr⟩
    unfold check
    rw [hbody]
    exact hsf
  · exact fun h => List.noConfusion h
  · exact ⟨pys "Internal error ",
      pys " in " ++ (e.fname ++ (pys " at " ++ (intStr e.lineno ++
        (pys " - " ++ (e.msg ++ (pys "\nTraceback:\n" ++ e.tb)))))), rfl⟩
  · refine ⟨pys "Internal error " ++ (e.typeName ++ (pys " in " ++
      (e.fname ++ (pys " at " ++ (intStr e.lineno ++ pys " - "))))),
      pys "\nTraceback:\n" ++ e.tb, ?_⟩
    simp [format_internal_error, List.append_assoc]
  · refine ⟨pys "Internal error " ++ (e.typeName ++ (pys " in " ++
      (e.fname ++ (pys " at " ++ (intStr e.lineno ++ (pys " - " ++
        (e.msg ++ pys "\nTraceback:\n"))))))), ?_⟩
    simp [format_internal_error, List.append_assoc]

/-- The state after trapping `c1Exc` for `aL`. -/
def stTrapped : AState :=
  { context := [(pys "scope:action/a/StatusCode", pys "failed"),
                (pys "scope:action/a/StatusReason", format_internal_error c1Exc)]
  , trace := [] }

/-- C1 witness: with no hooks declared, the raise from `_resolve` is
trapped by both `execute` and `check`, which return normally with the
status `failed` and the formatted diagnostic stored. -/
theorem internal_error_trap_witness :
    (execute raiseEnv aL st0 = (Except.ok (), stTrapped) ∧
      get_status_code aL stTrapped = StatusCode.failed.value ∧
      get_status_reason aL stTrapped = some (format_internal_error c1Exc)) ∧
    (check raiseEnv aL st0 = (Except.ok (), stTrapped) ∧
      get_status_code aL stTrapped = StatusCode.failed.value ∧
      get_status_reason aL stTrapped = some (format_internal_error c1Exc)) :=
  ⟨(internal_error_trap raiseEnv aL st0 c1Exc).1 st0 stTrapped rfl rfl,
   (internal_error_trap raiseEnv aL st0 c1Exc).2.1 st0 stTrapped rfl rfl⟩

end CoreExecute
